import Mathlib

/-!
Verification development for the GSA-to-JSON map converter (`map_porter.py`)
of the Dragonica-UE5-rebuilt repository.

The Python source is shallowly embedded: XML elements become explicit
records (`XProp`, `Component`, `Entity`), Python dicts become ordered
association lists with Python's insertion-order update semantics
(`aget`/`aset`/`aupdate`), the process-wide logging and the
`UNHANDLED_COMPONENTS` set become an explicit state record (`St`)
threaded through the functions, and Python `float` values are modelled
as exact rationals parsed from the numeric literal text
(`parseFloat`; exponent notation is supported, `inf`/`nan`/underscore
literals are not — no input in this development uses them).

The toolchain runs on Windows (its own usage examples use `C:/...`
paths), so `os.path` is modelled with ntpath semantics: both `/` and
`\` act as separators, `os.path.join` inserts `\`, and
`os.path.normpath` first rewrites `/` to `\` and then resolves `.` and
`..` segments.  Drive letters and UNC prefixes are not modelled; no
path in this development carries them.

`get_component_data` recurses on the `MasterLinkID` chain with no
termination guarantee in the source, so the embedding takes an explicit
recursion budget (`fuel`); the outer `Option` layer of its result is
`none` exactly when the computation does not complete normally (budget
exhausted, modelling the unbounded recursion, or a Python-level
`TypeError`/`KeyError` on an impossible intermediate value).  The inner
`Option` is the Python function's own `return None`.
-/

namespace MapPorter

/-- Values stored in a normalized-component dictionary: Python floats
(as rationals), strings, lists of floats, matrices, lists of reference
identifiers, and Python `None` (which `json.dump` serializes as
`null`). -/
inductive Value : Type where
  | num : ℚ → Value
  | str : String → Value
  | vec : List ℚ → Value
  | mat : List (List ℚ) → Value
  | refs : List String → Value
  | nil : Value
deriving DecidableEq, Repr

/-- Wraps an optional attribute string the way Python stores
`element.get(...)` results into a dict: `None` or the string itself. -/
def optVal : Option String → Value
  | none => Value.nil
  | some s => Value.str s

/-- Association-list lookup: first binding wins, matching lookup in a
Python dict whose keys are unique. -/
def aget {κ α : Type} [DecidableEq κ] : List (κ × α) → κ → Option α
  | [], _ => none
  | (k', v) :: r, k => if k' = k then some v else aget r k

/-- Association-list write with Python-dict semantics: an existing key
is overwritten in place (keeping its position), a new key is appended,
preserving insertion order. -/
def aset {κ α : Type} [DecidableEq κ] : List (κ × α) → κ → α → List (κ × α)
  | [], k, v => [(k, v)]
  | (k', v') :: r, k, v => if k' = k then (k, v) :: r else (k', v') :: aset r k v

/-- Python `dict.update`: fold the patch into the base dict entry by
entry. -/
def aupdate {κ α : Type} [DecidableEq κ] (m patch : List (κ × α)) : List (κ × α) :=
  patch.foldl (fun acc kv => aset acc kv.1 kv.2) m

/-- Python `set.add` on the modelled `UNHANDLED_COMPONENTS` set: kept
as an insertion-ordered duplicate-free list (the claims only use
membership and multiplicity, which agree with Python's set). -/
def setAdd (s : List String) (x : String) : List String :=
  if x ∈ s then s else s ++ [x]

/-- Process-wide mutable state of the script: the
`UNHANDLED_COMPONENTS` set and the diagnostic log written via
`logging.warning`. -/
structure St : Type where
  unhandled : List String
  log : List String
deriving DecidableEq, Repr

/-- Appends one diagnostic message, modelling `logging.warning`. -/
def warn (st : St) (m : String) : St :=
  { st with log := st.log ++ [m] }

/-
String helpers.  The Lean core equivalents (`String.trim`,
`String.replace`, `String.splitOn`, ...) are implemented over byte
positions with well-founded recursion and do not reduce inside the
kernel, so the Python string operations the script uses are embedded
here as structurally recursive functions over character lists.  Each
matches the corresponding Python `str` method on the inputs the script
feeds it.
-/

/-- Python `str.strip()`: drop whitespace from both ends. -/
def pyStrip (s : String) : String :=
  String.mk (((s.toList.dropWhile Char.isWhitespace).reverse.dropWhile
    Char.isWhitespace).reverse)

/-- Python `str.lower()` on ASCII text. -/
def pyLower (s : String) : String :=
  String.mk (s.toList.map Char.toLower)

/-- Worker for `pySplit`, accumulating the current field reversed. -/
def splitCharAux (sep : Char) : List Char → List Char → List String
  | [], cur => [String.mk cur.reverse]
  | c :: r, cur =>
    if c = sep then String.mk cur.reverse :: splitCharAux sep r []
    else splitCharAux sep r (c :: cur)

/-- Python `str.split(sep)` for a one-character separator: splits at
every occurrence and keeps empty fields. -/
def pySplit (s : String) (sep : Char) : List String :=
  splitCharAux sep s.toList []

/-- Python `str.replace(a, b)` for one-character arguments. -/
def pyReplaceChar (s : String) (a b : Char) : String :=
  String.mk (s.toList.map (fun c => if c = a then b else c))

/-- Python `str.replace(a, "")` for a one-character pattern. -/
def pyRemoveChar (s : String) (a : Char) : String :=
  String.mk (s.toList.filter (fun c => c ≠ a))

/-- Python `str.endswith(suffix)`. -/
def pyEndsWith (s suffix : String) : Bool :=
  s.toList.reverse.take suffix.toList.length = suffix.toList.reverse

/-- Python slicing `s[:-n]`. -/
def pyDropRight (s : String) (n : ℕ) : String :=
  String.mk (s.toList.take (s.toList.length - n))

/-- Python `sep.join(parts)`. -/
def pyIntercalate (sep : String) : List String → String
  | [] => ""
  | [x] => x
  | x :: y :: r => x ++ sep ++ pyIntercalate sep (y :: r)

/-- Digit run to a natural number. -/
def digitsToNat (l : List Char) : ℕ :=
  l.foldl (fun a c => a * 10 + (c.toNat - 48)) 0

/-- Parses an optional exponent suffix (`e`/`E`, optional sign,
digits); returns the signed decimal exponent, or `none` on a malformed
suffix. -/
def parseExp : List Char → Option ℤ
  | [] => some 0
  | 'e' :: r => parseExpDigits r
  | 'E' :: r => parseExpDigits r
  | _ => none
where
  /-- Sign and digit part of an exponent. -/
  parseExpDigits : List Char → Option ℤ
  | [] => none
  | '+' :: r => if r ≠ [] ∧ r.all Char.isDigit then some (digitsToNat r : ℤ) else none
  | '-' :: r => if r ≠ [] ∧ r.all Char.isDigit then some (-(digitsToNat r : ℤ)) else none
  | r => if r.all Char.isDigit then some (digitsToNat r : ℤ) else none

/-- Builds the exact rational `sgn * mant / 10 ^ fracLen * 10 ^ e`
from the pieces of a decimal literal, using integer arithmetic and a
single `mkRat` so the kernel can evaluate it. -/
def decToRat (sgn : ℤ) (mant : ℕ) (fracLen : ℕ) (e : ℤ) : ℚ :=
  match e with
  | Int.ofNat k => mkRat (sgn * mant * (10 : ℤ) ^ k) ((10 : ℕ) ^ fracLen)
  | Int.negSucc k => mkRat (sgn * mant) ((10 : ℕ) ^ (fracLen + (k + 1)))

/-- Python `float(s)` on decimal literal text, with the value kept
exact as a rational: optional surrounding whitespace, optional sign,
integer digits, optional fractional part, optional exponent; at least
one digit must be present.  Returns `none` where Python raises
`ValueError`. -/
def parseFloat (s : String) : Option ℚ :=
  let cs := (pyStrip s).toList
  let signAndRest : ℤ × List Char :=
    match cs with
    | '-' :: r => (-1, r)
    | '+' :: r => (1, r)
    | _ => (1, cs)
  let sgn := signAndRest.1
  let body := signAndRest.2
  let intPart := body.takeWhile Char.isDigit
  let rest := body.dropWhile Char.isDigit
  match rest with
  | '.' :: r2 =>
    let frac := r2.takeWhile Char.isDigit
    let rest2 := r2.dropWhile Char.isDigit
    if intPart = [] ∧ frac = [] then none
    else
      match parseExp rest2 with
      | some e =>
        some (decToRat sgn (digitsToNat intPart * 10 ^ frac.length + digitsToNat frac)
          frac.length e)
      | none => none
  | r =>
    if intPart = [] then none
    else
      match parseExp r with
      | some e => some (decToRat sgn (digitsToNat intPart) 0 e)
      | none => none

/-- Parses a comma-separated float list, modelling
`[float(v.strip()) for v in text.split(',')]`: any element failing to
parse fails the whole list (the Python comprehension raises). -/
def parseFloatList (t : String) : Option (List ℚ) :=
  (pySplit t ',').mapM parseFloat

/-- True on the two Windows path separators. -/
def isSep (c : Char) : Bool :=
  c = '/' || c = '\\'

/-- True when the path begins with a separator. -/
def startsWithSep (s : String) : Bool :=
  match s.toList with
  | c :: _ => isSep c
  | [] => false

/-- True when the path ends with a separator. -/
def endsWithSep (s : String) : Bool :=
  match s.toList.getLast? with
  | some c => isSep c
  | none => false

/-- Windows `os.path.join` for drive-less paths: a rooted second
argument replaces the first, otherwise a backslash is inserted unless
the first part is empty or already ends in a separator. -/
def ntJoin (a b : String) : String :=
  if startsWithSep b then b
  else if a = "" then b
  else if endsWithSep a then a ++ b
  else a ++ "\\" ++ b

/-- Segment normalization of `ntpath.normpath`: drop empty and `.`
segments, let `..` pop the previous segment; at the front, `..` is
dropped on an absolute path and kept on a relative one. -/
def normSegs (abs : Bool) (segs : List String) : List String :=
  segs.foldl
    (fun acc seg =>
      if seg = "" ∨ seg = "." then acc
      else if seg = ".." then
        match acc.getLast? with
        | some l => if l = ".." then acc ++ [".."] else acc.dropLast
        | none => if abs then acc else [".."]
      else acc ++ [seg])
    []

/-- Windows `os.path.normpath` for drive-less, non-UNC paths: rewrite
`/` to `\`, normalize the segments, and render (an empty relative
result becomes `.`). -/
def ntNormpath (p : String) : String :=
  let q := pyReplaceChar p '/' '\\'
  let abs := startsWithSep q
  let comps := normSegs abs (pySplit q '\\')
  let body := pyIntercalate "\\" comps
  if abs then "\\" ++ body
  else if body = "" then "." else body

/-- Windows `os.path.dirname` for drive-less paths: everything before
the last separator, with trailing separators stripped unless the head
consists only of separators. -/
def nt_dirname (p : String) : String :=
  let rcs := p.toList.reverse
  let headRev := rcs.dropWhile (fun c => ¬ isSep c)
  let headRevStripped := headRev.dropWhile isSep
  if headRevStripped = [] then String.mk headRev.reverse
  else String.mk headRevStripped.reverse

/-- Converts a relative NIF path plus the GSA file's directory to a
`/Game/...` asset path, embedding `get_unreal_asset_path`
(map_porter.py lines 17-52): empty/`None` input warns and returns
`None`; otherwise the path is joined, normalized, split on `/` after
backslash replacement, cut after the first `Data` segment, stripped of
a case-insensitive `.nif` extension, and prefixed with `/Game`; a
missing `Data` segment warns and returns `None`. -/
def get_unreal_asset_path (nif_path_rel : Option String) (gsa_dir : String) (st : St) :
    Option String × St :=
  match nif_path_rel with
  | none => (none, warn st "Invalid nif_path_rel provided: None")
  | some r =>
    if r = "" then (none, warn st ("Invalid nif_path_rel provided: " ++ r))
    else
      let full_nif_path := ntJoin gsa_dir r
      let normalized_path := ntNormpath full_nif_path
      let path_parts := pySplit (pyReplaceChar normalized_path '\\' '/') '/'
      match path_parts.findIdx? (fun x => x = "Data") with
      | some data_index =>
        let relative_to_data := path_parts.drop (data_index + 1)
        let clean_path := pyIntercalate "/" relative_to_data
        let clean_path :=
          if pyEndsWith (pyLower clean_path) ".nif" then pyDropRight clean_path 4 else clean_path
        (some (pyReplaceChar (ntJoin "/Game" clean_path) '\\' '/'), st)
      | none =>
        (none, warn st ("Could not find Data root in path: " ++ normalized_path))

/-- One `PROPERTY` child of a component element: its `Name` and
`Class` attributes, its text payload, the text of its `ROW` children
(for matrices) and the `RefLinkID` attributes of its `ITEM` children
(for reference lists).  `Option` models an absent attribute or absent
text, exactly what lxml's `get`/`.text` return. -/
structure XProp : Type where
  nm : Option String := none
  cls : Option String := none
  text : Option String := none
  rows : List (Option String) := []
  items : List (Option String) := []
deriving DecidableEq, Repr

/-- A `COMPONENT` element as the script reads it: the `LinkID`,
`Class`, `Name` and `MasterLinkID` attributes plus the `PROPERTY`
children. -/
structure Component : Type where
  linkID : Option String := none
  cls : Option String := none
  nm : Option String := none
  masterLinkID : Option String := none
  props : List XProp := []
deriving DecidableEq, Repr

/-- An `ENTITY` element as the script reads it: its attributes plus
the `RefLinkID` attributes of its `COMPONENT` reference children
(`get_component_data` reads nothing else from a component reference). -/
structure Entity : Type where
  linkID : Option String := none
  nm : Option String := none
  cls : Option String := none
  etype : Option String := none
  masterLinkID : Option String := none
  compRefs : List (Option String) := []
deriving DecidableEq, Repr

/-- A normalized-component dictionary. -/
abbrev Dict : Type := List (String × Value)

/-- Finds the first `PROPERTY` child with the given `Name` attribute,
modelling `component.find("PROPERTY[@Name=...]")`. -/
def findProp (c : Component) (n : String) : Option XProp :=
  c.props.find? (fun p => p.nm = some n)

/-- Embeds `parse_transform` (map_porter.py lines 56-88): reads the
`Translation`, `Rotation` and `Scale` properties, parsing each
numerically; a parse failure logs a warning and omits only that
attribute. -/
def parse_transform (component : Component) (st : St) : Dict × St :=
  let step1 : Dict × St :=
    match findProp component "Translation" with
    | some p =>
      match p.text with
      | some t =>
        if t = "" then ([], st)
        else
          match parseFloatList t with
          | some l => ([("translation", Value.vec l)], st)
          | none => ([], warn st ("Could not parse translation: " ++ t))
      | none => ([], st)
    | none => ([], st)
  let step2 : Dict × St :=
    match findProp component "Rotation" with
    | some p =>
      if p.rows = [] then step1
      else
        match ((p.rows.filterMap id).filter (fun t => t ≠ "")).mapM parseFloatList with
        | some matrix =>
          if matrix = [] then step1
          else (aset step1.1 "rotation" (Value.mat matrix), step1.2)
        | none => (step1.1, warn step1.2 "Could not parse rotation matrix.")
    | none => step1
  match findProp component "Scale" with
  | some p =>
    match p.text with
    | some t =>
      if t = "" then step2
      else
        match parseFloat t with
        | some q => (aset step2.1 "scale" (Value.num q), step2.2)
        | none => (step2.1, warn step2.2 ("Could not parse scale: " ++ t))
    | none => step2
  | none => step2

/-- The key normalization of `parse_light` (line 101): lower-case the
property name, replace spaces with underscores, remove parentheses. -/
def lightKey (nm : String) : String :=
  pyRemoveChar (pyRemoveChar (pyReplaceChar (pyLower nm) ' ' '_') '(') ')'

/-- Embeds `parse_light` (map_porter.py lines 90-123): every
`PROPERTY` with a truthy `Name` contributes one entry under its
normalized key; class `Entity Pointer` collects the truthy `RefLinkID`
of each `ITEM`, class `Color (RGB)` parses a comma-separated float
vector, class `Float` parses one float (numeric failures log and omit
the entry), anything else keeps the stripped text. -/
def parse_light (component : Component) (st : St) : Dict × St :=
  component.props.foldl
    (fun acc p =>
      let prop_text : String :=
        match p.text with
        | some t => if t = "" then "" else pyStrip t
        | none => ""
      match p.nm with
      | none => acc
      | some nm =>
        if nm = "" then acc
        else
          let key_name := lightKey nm
          if p.cls = some "Entity Pointer" then
            let affected := p.items.filterMap
              (fun it =>
                match it with
                | some r => if r = "" then none else some r
                | none => none)
            (aset acc.1 key_name (Value.refs affected), acc.2)
          else if p.cls = some "Color (RGB)" then
            match parseFloatList prop_text with
            | some l => (aset acc.1 key_name (Value.vec l), acc.2)
            | none => (acc.1, warn acc.2 ("Could not parse RGB color: " ++ prop_text))
          else if p.cls = some "Float" then
            match parseFloat prop_text with
            | some q => (aset acc.1 key_name (Value.num q), acc.2)
            | none => (acc.1, warn acc.2 ("Could not parse float: " ++ prop_text))
          else (aset acc.1 key_name (Value.str prop_text), acc.2))
    ([], st)

/-- Renders an optional string the way a Python f-string does
(`None` prints as `None`). -/
def fstr : Option String → String
  | none => "None"
  | some s => s

/-- Embeds `get_component_data` (map_porter.py lines 126-166).  The
first argument is the recursion budget (the source recurses on the
master chain with no bound); the outer `Option` of the result is
`none` iff the call does not return normally.  The inner `Option`
mirrors the Python `return None` on a falsy or unresolvable
`RefLinkID`.  When the component carries a truthy `MasterLinkID` that
resolves in the map, the master's data is computed first and the
component's own base triple and class-specific attributes are written
on top of it (`data.update`).  The `templates_map` parameter is
accepted and passed along unused, as in the source. -/
def get_component_data :
    ℕ → Option String → List (String × Component) → List (String × Entity) → String → St →
    Option (Option Dict × St)
  | 0, _, _, _, _, _ => none
  | fuel + 1, component_ref, components_map, templates_map, gsa_dir, st =>
    match component_ref with
    | none => some (none, st)
    | some comp_link_id =>
      if comp_link_id = "" then some (none, st)
      else
        match aget components_map comp_link_id with
        | none => some (none, st)
        | some component =>
          let masterStep : Option (Dict × St) :=
            match component.masterLinkID with
            | some master_link_id =>
              if master_link_id ≠ "" ∧ (aget components_map master_link_id).isSome then
                match get_component_data fuel (some master_link_id) components_map
                    templates_map gsa_dir st with
                | some (some d, st1) => some (d, st1)
                | _ => none
              else some ([], st)
            | none => some ([], st)
          match masterStep with
          | none => none
          | some (data0, st1) =>
            let data := aset (aset (aset data0
              "link_id" (Value.str comp_link_id))
              "class" (optVal component.cls))
              "name" (optVal component.nm)
            if component.cls = some "NiTransformationComponent" then
              let r := parse_transform component st1
              some (some (aupdate data r.1), r.2)
            else if component.cls = some "NiSceneGraphComponent" then
              let sg_prop :=
                match findProp component "Scene Root" with
                | some p => some p
                | none => findProp component "NIF File Path"
              match sg_prop with
              | some p =>
                match p.text with
                | some t =>
                  if t = "" then some (some data, st1)
                  else
                    let nif_path_rel := pyStrip t
                    let r := get_unreal_asset_path (some nif_path_rel) gsa_dir st1
                    some (some (aset (aset data
                      "unreal_path" (optVal r.1))
                      "nif_path_rel" (Value.str nif_path_rel)), r.2)
                | none => some (some data, st1)
              | none => some (some data, st1)
            else if component.cls = some "NiLightComponent" then
              let r := parse_light component st1
              some (some (aupdate data r.1), r.2)
            else if component.cls = some "NiCameraComponent" ∨
                component.cls = some "NiGeneralComponent" ∨
                component.cls = some "NiCollisionComponent" then
              some (some data, st1)
            else
              let newUnh := setAdd st1.unhandled (fstr component.cls ++ "::" ++ fstr component.nm)
              some (some data, { st1 with unhandled := newUnh })

/-- One Entity Record of the output document, modelling the
`entity_data` dict built by `get_entity_data` (map_porter.py lines
176-183): the five header attributes plus the merged component list. -/
structure EntityData : Type where
  nm : Option String
  cls : Option String
  etype : Option String
  template_id : Option String
  instance_id : Option String
  components : List Dict
deriving DecidableEq, Repr

/-- Embeds one of the two resolution loops of `get_entity_data`
(map_porter.py lines 185-195): resolve each `COMPONENT` reference and
key the successful results by their `name` value (Python dict keys, so
keyed by the `Value`, which may be `None`).  The outer `Option` is
`none` iff a call does not return normally. -/
def resolve_into (fuel : ℕ) (components_map : List (String × Component))
    (templates_map : List (String × Entity)) (gsa_dir : String) :
    List (Option String) → List (Value × Dict) × St → Option (List (Value × Dict) × St)
  | [], acc => some acc
  | comp_ref :: rest, acc =>
    match get_component_data fuel comp_ref components_map templates_map gsa_dir acc.2 with
    | none => none
    | some (none, st1) => resolve_into fuel components_map templates_map gsa_dir rest (acc.1, st1)
    | some (some comp_data, st1) =>
      match aget comp_data "name" with
      | none => none
      | some v =>
        resolve_into fuel components_map templates_map gsa_dir rest
          (aset acc.1 v comp_data, st1)

/-- Embeds `get_entity_data` (map_porter.py lines 168-202): a falsy or
unresolvable `MasterLinkID` returns `None` (no log entry, state
untouched); otherwise the template entity's component references and
then the instance entity's are resolved into two name-keyed mappings,
and the final component list is the template mapping overlaid by the
instance mapping (`dict.copy` + `dict.update`), in insertion order. -/
def get_entity_data (fuel : ℕ) (entity : Entity)
    (components_map : List (String × Component)) (templates_map : List (String × Entity))
    (gsa_dir : String) (st : St) : Option (Option EntityData × St) :=
  match entity.masterLinkID with
  | none => some (none, st)
  | some master_link =>
    if master_link = "" then some (none, st)
    else
      match aget templates_map master_link with
      | none => some (none, st)
      | some template_entity =>
        match resolve_into fuel components_map templates_map gsa_dir
            template_entity.compRefs ([], st) with
        | none => none
        | some (template_components, st1) =>
          match resolve_into fuel components_map templates_map gsa_dir
              entity.compRefs ([], st1) with
          | none => none
          | some (instance_components, st2) =>
            let final_components := aupdate template_components instance_components
            some (some
              { nm := entity.nm
                cls := entity.cls
                etype := entity.etype
                template_id := template_entity.linkID
                instance_id := entity.linkID
                components := final_components.map Prod.snd }, st2)

/-- One element-end event of the first streaming pass, carrying either
a `COMPONENT` or an `ENTITY` element. -/
inductive Ev : Type where
  | comp : Component → Ev
  | ent : Entity → Ev
deriving DecidableEq, Repr

/-- One step of the first pass (map_porter.py lines 255-264): a
`COMPONENT` with a truthy `LinkID` is entered into the component map;
an `ENTITY` whose `MasterLinkID` attribute is absent (`is None`) and
whose `LinkID` is truthy is entered into the template map; everything
else leaves the maps unchanged.  Python dict assignment means a
repeated key is overwritten — the later element wins. -/
def pass1_step (maps : List (String × Component) × List (String × Entity)) (ev : Ev) :
    List (String × Component) × List (String × Entity) :=
  match ev with
  | Ev.comp c =>
    match c.linkID with
    | some link_id => if link_id = "" then maps else (aset maps.1 link_id c, maps.2)
    | none => maps
  | Ev.ent e =>
    match e.masterLinkID with
    | some _ => maps
    | none =>
      match e.linkID with
      | some link_id => if link_id = "" then maps else (maps.1, aset maps.2 link_id e)
      | none => maps

/-- The whole first pass: fold the steps over the document's event
stream, starting from two empty maps. -/
def pass1 (evs : List Ev) : List (String × Component) × List (String × Entity) :=
  evs.foldl pass1_step ([], [])

/-- Embeds the second streaming pass (map_porter.py lines 275-284):
every `ENTITY` whose `MasterLinkID` attribute is present is an
instance; `get_entity_data` is invoked on it and a non-`None` result
is appended to the scene's entity list; a `None` result is silently
dropped and the loop continues. -/
def pass2 (fuel : ℕ) (components_map : List (String × Component))
    (templates_map : List (String × Entity)) (gsa_dir : String) :
    List Entity → List EntityData → St → Option (List EntityData × St)
  | [], acc, st => some (acc, st)
  | entity :: rest, acc, st =>
    match entity.masterLinkID with
    | none => pass2 fuel components_map templates_map gsa_dir rest acc st
    | some _ =>
      match get_entity_data fuel entity components_map templates_map gsa_dir st with
      | none => none
      | some (none, st1) => pass2 fuel components_map templates_map gsa_dir rest acc st1
      | some (some entity_data, st1) =>
        pass2 fuel components_map templates_map gsa_dir rest (acc ++ [entity_data]) st1

/-
Concrete example data used by the claim theorems, mirroring the
document fragments named in the spec's testable properties.
-/

/-- A `PROPERTY` element carrying only a name and a text payload. -/
def xTextProp (n t : String) : XProp :=
  { nm := some n, text := some t }

/-- Template-side "Root" transform component: `scale=1.0` plus a
`translation` the instance does not define, to separate
whole-component replacement from field-level merging. -/
def c1_templateRoot : Component :=
  { linkID := some "c1", cls := some "NiTransformationComponent", nm := some "Root",
    props := [xTextProp "Scale" "1.0", xTextProp "Translation" "9,9,9"] }

/-- Instance-side "Root" transform component with only `scale=2.0`. -/
def c1_instanceRoot : Component :=
  { linkID := some "c2", cls := some "NiTransformationComponent", nm := some "Root",
    props := [xTextProp "Scale" "2.0"] }

/-- Template entity referencing the template "Root" component. -/
def c1_templateEntity : Entity :=
  { linkID := some "T1", nm := some "Tmpl", compRefs := [some "c1"] }

/-- Instance entity of that template, overriding "Root". -/
def c1_instanceEntity : Entity :=
  { linkID := some "E1", nm := some "Inst", masterLinkID := some "T1",
    compRefs := [some "c2"] }

/-- Component map of the C1 scenario. -/
def c1_cmap : List (String × Component) := [("c1", c1_templateRoot), ("c2", c1_instanceRoot)]

/-- Template map of the C1 scenario. -/
def c1_tmap : List (String × Entity) := [("T1", c1_templateEntity)]

/-- The merged "Root" component the C1 scenario must produce: exactly
the instance resolution — `scale=2.0` and no `translation`. -/
def c1_mergedRoot : Dict :=
  [("link_id", Value.str "c2"), ("class", Value.str "NiTransformationComponent"),
   ("name", Value.str "Root"), ("scale", Value.num 2)]

/-- Master component "B" of the C2 scenario: `translation=[1,2,3]`
plus a `scale=9.0` for the child to override field-wise. -/
def c2_masterComp : Component :=
  { linkID := some "B", cls := some "NiTransformationComponent", nm := some "MasterComp",
    props := [xTextProp "Translation" "1,2,3", xTextProp "Scale" "9.0"] }

/-- Child component "A" of the C2 scenario: master-links to "B" and
defines only `scale=0.5`. -/
def c2_childComp : Component :=
  { linkID := some "A", cls := some "NiTransformationComponent", nm := some "Child",
    masterLinkID := some "B", props := [xTextProp "Scale" "0.5"] }

/-- Component map of the C2 scenario. -/
def c2_cmap : List (String × Component) := [("A", c2_childComp), ("B", c2_masterComp)]

/-- Expected resolution of "A": the master's `translation` survives,
the child's own `scale` and base triple win field-by-field. -/
def c2_resolvedChild : Dict :=
  [("link_id", Value.str "A"), ("class", Value.str "NiTransformationComponent"),
   ("name", Value.str "Child"), ("translation", Value.vec [1, 2, 3]),
   ("scale", Value.num (mkRat 1 2))]

/-- Component whose `MasterLinkID` is its own `LinkID`: the smallest
master-chain cycle. -/
def cyclicComp : Component :=
  { linkID := some "A", cls := some "NiTransformationComponent", nm := some "Cyc",
    masterLinkID := some "A" }

/-- Component map containing only the self-cyclic component. -/
def cyclic_cmap : List (String × Component) := [("A", cyclicComp)]

/-- Scene-graph component whose `Scene Root` path contains no `Data`
segment, so asset-path resolution fails. -/
def c5_sceneComp : Component :=
  { linkID := some "s1", cls := some "NiSceneGraphComponent", nm := some "SG",
    props := [{ nm := some "Scene Root", text := some " NoMarker\\model.nif " }] }

/-- Component map of the C5 scenario. -/
def c5_cmap : List (String × Component) := [("s1", c5_sceneComp)]

/-- The normalized component the C5 scenario produces: `unreal_path`
is present with the null value, `nif_path_rel` is retained. -/
def c5_dict : Dict :=
  [("link_id", Value.str "s1"), ("class", Value.str "NiSceneGraphComponent"),
   ("name", Value.str "SG"), ("unreal_path", Value.nil),
   ("nif_path_rel", Value.str "NoMarker\\model.nif")]

/-- Instance entity whose master-entity link `T404` resolves to no
template. -/
def c6_ghostEntity : Entity :=
  { linkID := some "E9", nm := some "Ghost", masterLinkID := some "T404",
    compRefs := [some "c1"] }

/-- A recognized-and-ignored collision component. -/
def c7_collComp : Component :=
  { linkID := some "k1", cls := some "NiCollisionComponent", nm := some "Wall" }

/-- First component of an unrecognized class. -/
def c7_fooComp1 : Component :=
  { linkID := some "f1", cls := some "NiFooBarComponent", nm := some "X" }

/-- Second component with the same unrecognized class and name. -/
def c7_fooComp2 : Component :=
  { linkID := some "f2", cls := some "NiFooBarComponent", nm := some "X" }

/-- Component map of the C7 scenario. -/
def c7_cmap : List (String × Component) :=
  [("k1", c7_collComp), ("f1", c7_fooComp1), ("f2", c7_fooComp2)]

/-- Resolution of the collision component: the base triple only. -/
def c7_collDict : Dict :=
  [("link_id", Value.str "k1"), ("class", Value.str "NiCollisionComponent"),
   ("name", Value.str "Wall")]

/-- Resolution of the first unrecognized component: base triple only. -/
def c7_fooDict1 : Dict :=
  [("link_id", Value.str "f1"), ("class", Value.str "NiFooBarComponent"),
   ("name", Value.str "X")]

/-- Resolution of the second unrecognized component. -/
def c7_fooDict2 : Dict :=
  [("link_id", Value.str "f2"), ("class", Value.str "NiFooBarComponent"),
   ("name", Value.str "X")]

/-- Two components sharing the link identifier "1", to exhibit the
last-seen-wins behavior of the first pass. -/
def c8_dupComp1 : Component :=
  { linkID := some "1", cls := some "NiGeneralComponent", nm := some "First" }

/-- The later element of the duplicate pair. -/
def c8_dupComp2 : Component :=
  { linkID := some "1", cls := some "NiGeneralComponent", nm := some "Second" }

/-- A template entity (no master-entity link) for the C8 witness. -/
def c8_tmplEntity : Entity :=
  { linkID := some "T7", nm := some "Proto" }

/-- Modelled from the spec: the claimed key normalization "the source
property name converted to lower case with spaces and punctuation
stripped", restricted to the punctuation characters the script
handles (space and parentheses), with "stripped" read as removed. -/
def spec_stripped_key (s : String) : String :=
  pyRemoveChar (pyRemoveChar (pyRemoveChar (pyLower s) ' ') '(') ')'

/-- Light property `Spot Angle` of declared class `Float`. -/
def c9_spotProp : XProp :=
  { nm := some "Spot Angle", cls := some "Float", text := some "1.5" }

/-- Light property of declared class `Color (RGB)`. -/
def c9_colorProp : XProp :=
  { nm := some "Ambient Color", cls := some "Color (RGB)", text := some "0.5, 0.25, 1" }

/-- Light property of declared class `Entity Pointer` with reference
items (including a missing and an empty `RefLinkID` to be skipped). -/
def c9_ptrProp : XProp :=
  { nm := some "Affected Entities", cls := some "Entity Pointer",
    items := [some "9", none, some "", some "10"] }

/-- Light property of an other (string) class with padded text. -/
def c9_strProp : XProp :=
  { nm := some "Light Type (Main)", cls := some "String", text := some " Foo " }

/-- Light component exercising the four normalization branches. -/
def c9_lightComp : Component :=
  { linkID := some "LA", cls := some "NiLightComponent", nm := some "Lamp",
    props := [c9_colorProp, c9_spotProp, c9_ptrProp, c9_strProp] }

/-- Expected property bag of `c9_lightComp`. -/
def c9_expected : Dict :=
  [("ambient_color", Value.vec [mkRat 1 2, mkRat 1 4, 1]),
   ("spot_angle", Value.num (mkRat 3 2)),
   ("affected_entities", Value.refs ["9", "10"]),
   ("light_type_main", Value.str "Foo")]

/-- Light component whose property is named `Name`: its normalized key
collides with the base-triple key `name`. -/
def c10_lightComp : Component :=
  { linkID := some "L", cls := some "NiLightComponent", nm := some "Lamp",
    props := [{ nm := some "Name", cls := some "String", text := some "Evil" }] }

/-- Component map of the C10 counterexample. -/
def c10_cmap : List (String × Component) := [("L", c10_lightComp)]

/-- The dictionary resolved for `c10_lightComp`: the `name` entry
holds the property value, not the element's `Name` attribute. -/
def c10_dict : Dict :=
  [("link_id", Value.str "L"), ("class", Value.str "NiLightComponent"),
   ("name", Value.str "Evil")]

/-- A plain transform component for the C10 witness. -/
def c10_plainComp : Component :=
  { linkID := some "w1", cls := some "NiTransformationComponent", nm := some "W",
    props := [xTextProp "Scale" "3.0"] }

/-- Component map of the C10 witness. -/
def c10_wmap : List (String × Component) := [("w1", c10_plainComp)]

/-- The dictionary resolved for `c10_plainComp`. -/
def c10_wdict : Dict :=
  [("link_id", Value.str "w1"), ("class", Value.str "NiTransformationComponent"),
   ("name", Value.str "W"), ("scale", Value.num 3)]

/-
Helper lemmas about the dictionary operations, shared by the claim
theorems below.
-/

theorem aset_cons_eq {κ α : Type} [DecidableEq κ] (a : κ) (b : α) (tl : List (κ × α))
    (k : κ) (v : α) (h : a = k) : aset ((a, b) :: tl) k v = (k, v) :: tl := by
  simp [aset, h]

theorem aset_cons_ne {κ α : Type} [DecidableEq κ] (a : κ) (b : α) (tl : List (κ × α))
    (k : κ) (v : α) (h : ¬ a = k) : aset ((a, b) :: tl) k v = (a, b) :: aset tl k v := by
  simp [aset, h]

theorem aget_cons {κ α : Type} [DecidableEq κ] (a : κ) (b : α) (tl : List (κ × α)) (k : κ) :
    aget ((a, b) :: tl) k = if a = k then some b else aget tl k := by
  simp [aget]

theorem aget_aset_self {κ α : Type} [DecidableEq κ] (m : List (κ × α)) (k : κ) (v : α) :
    aget (aset m k v) k = some v := by
  induction m with
  | nil => simp [aset, aget]
  | cons hd tl ih =>
    obtain ⟨a, b⟩ := hd
    by_cases h : a = k
    · rw [aset_cons_eq _ _ _ _ _ h, aget_cons, if_pos rfl]
    · rw [aset_cons_ne _ _ _ _ _ h, aget_cons, if_neg h, ih]

theorem aget_aset_ne {κ α : Type} [DecidableEq κ] (m : List (κ × α)) (k k' : κ) (v : α)
    (h : k ≠ k') : aget (aset m k v) k' = aget m k' := by
  induction m with
  | nil => simp [aset, aget, h]
  | cons hd tl ih =>
    obtain ⟨a, b⟩ := hd
    by_cases h1 : a = k
    · rw [aset_cons_eq _ _ _ _ _ h1, aget_cons, aget_cons, if_neg h, h1, if_neg h]
    · rw [aset_cons_ne _ _ _ _ _ h1, aget_cons, aget_cons, ih]

theorem mem_aset {κ α : Type} [DecidableEq κ] (m : List (κ × α)) (k : κ) (v : α)
    (kv : κ × α) (h : kv ∈ aset m k v) : kv = (k, v) ∨ kv ∈ m := by
  induction m with
  | nil => simpa [aset] using h
  | cons hd tl ih =>
    obtain ⟨a, b⟩ := hd
    by_cases h1 : a = k
    · rw [aset_cons_eq _ _ _ _ _ h1] at h
      rcases List.mem_cons.mp h with h2 | h2
      · exact Or.inl h2
      · exact Or.inr (List.mem_cons_of_mem _ h2)
    · rw [aset_cons_ne _ _ _ _ _ h1] at h
      rcases List.mem_cons.mp h with h2 | h2
      · exact Or.inr (by simp [h2])
      · rcases ih h2 with h3 | h3
        · exact Or.inl h3
        · exact Or.inr (List.mem_cons_of_mem _ h3)

theorem aget_aupdate_keys_disjoint {κ α : Type} [DecidableEq κ]
    (patch : List (κ × α)) (m : List (κ × α)) (k : κ)
    (h : ∀ kv ∈ patch, kv.1 ≠ k) : aget (aupdate m patch) k = aget m k := by
  induction patch generalizing m with
  | nil => simp [aupdate]
  | cons hd tl ih =>
    have step : aupdate m (hd :: tl) = aupdate (aset m hd.1 hd.2) tl := by
      simp [aupdate]
    rw [step, ih _ (fun kv hkv => h kv (List.mem_cons_of_mem _ hkv)),
      aget_aset_ne _ _ _ _ (h hd (List.mem_cons_self _ _))]

theorem aget_aupdate_isSome {κ α : Type} [DecidableEq κ]
    (patch : List (κ × α)) (m : List (κ × α)) (k : κ)
    (h : (aget m k).isSome) : (aget (aupdate m patch) k).isSome := by
  induction patch generalizing m with
  | nil => simpa [aupdate] using h
  | cons hd tl ih =>
    have step : aupdate m (hd :: tl) = aupdate (aset m hd.1 hd.2) tl := by
      simp [aupdate]
    rw [step]
    refine ih _ ?_
    by_cases h1 : hd.1 = k
    · rw [h1, aget_aset_self]; simp
    · rwa [aget_aset_ne _ _ _ _ h1]

/-- Keys of a dictionary are pairwise distinct (true of every mapping
the script builds, since they are built by repeated `aset`). -/
def keysNodup {κ α : Type} (m : List (κ × α)) : Prop :=
  (m.map Prod.fst).Nodup

theorem keysNodup_cons {κ α : Type} (a : κ) (b : α) (tl : List (κ × α)) :
    keysNodup ((a, b) :: tl) ↔ (∀ kv ∈ tl, kv.1 ≠ a) ∧ keysNodup tl := by
  simp only [keysNodup, List.map_cons, List.nodup_cons, List.mem_map]
  constructor
  · rintro ⟨h1, h2⟩
    refine ⟨fun kv hkv hc => h1 ⟨kv, hkv, hc⟩, h2⟩
  · rintro ⟨h1, h2⟩
    refine ⟨fun hc => ?_, h2⟩
    obtain ⟨kv, hkv, hc2⟩ := hc
    exact h1 kv hkv hc2

theorem aget_aupdate_of_aget {κ α : Type} [DecidableEq κ]
    (patch : List (κ × α)) (m : List (κ × α)) (k : κ) (d : α)
    (hnd : keysNodup patch) (h : aget patch k = some d) :
    aget (aupdate m patch) k = some d := by
  induction patch generalizing m with
  | nil => simp [aget] at h
  | cons hd tl ih =>
    obtain ⟨a, b⟩ := hd
    have step : aupdate m ((a, b) :: tl) = aupdate (aset m a b) tl := by
      simp [aupdate]
    rw [step]
    have hnd2 := (keysNodup_cons a b tl).mp hnd
    by_cases h1 : a = k
    · have hv : b = d := by
        rw [aget_cons, if_pos h1] at h
        exact Option.some.inj h
      have hknot : ∀ kv ∈ tl, kv.1 ≠ k := by
        intro kv hkv hc
        exact hnd2.1 kv hkv (by rw [hc, h1])
      rw [aget_aupdate_keys_disjoint _ _ _ hknot, h1, hv, aget_aset_self]
    · have h2 : aget tl k = some d := by
        rw [aget_cons, if_neg h1] at h
        exact h
      exact ih _ hnd2.2 h2

theorem keysNodup_aset {κ α : Type} [DecidableEq κ] (m : List (κ × α)) (k : κ) (v : α)
    (h : keysNodup m) : keysNodup (aset m k v) := by
  induction m with
  | nil =>
    simp [aset, keysNodup]
  | cons hd tl ih =>
    obtain ⟨a, b⟩ := hd
    have h2 := (keysNodup_cons a b tl).mp h
    by_cases h1 : a = k
    · rw [aset_cons_eq _ _ _ _ _ h1]
      refine (keysNodup_cons k v tl).mpr ⟨?_, h2.2⟩
      intro kv hkv hc
      exact h2.1 kv hkv (by rw [hc, h1])
    · rw [aset_cons_ne _ _ _ _ _ h1]
      refine (keysNodup_cons a b (aset tl k v)).mpr ⟨?_, ih h2.2⟩
      intro kv hkv hc
      rcases mem_aset _ _ _ _ hkv with he | he
      · rw [he] at hc
        exact h1 (by rw [← hc])
      · exact h2.1 kv he hc

theorem aget_aset_cases {κ α : Type} [DecidableEq κ] (m : List (κ × α)) (k k' : κ)
    (v w : α) (h : aget (aset m k v) k' = some w) :
    (k = k' ∧ w = v) ∨ (¬ k = k' ∧ aget m k' = some w) := by
  by_cases he : k = k'
  · subst he
    rw [aget_aset_self] at h
    exact Or.inl ⟨rfl, (Option.some.inj h).symm⟩
  · rw [aget_aset_ne _ _ _ _ he] at h
    exact Or.inr ⟨he, h⟩

theorem gcd_master_fail (fuel : ℕ) (cid mid : String)
    (cmap : List (String × Component)) (tmap : List (String × Entity)) (dir : String)
    (st : St) (comp : Component)
    (hcid : ¬ cid = "") (hc : aget cmap cid = some comp) (hm : comp.masterLinkID = some mid)
    (hmid : ¬ mid = "") (hms : (aget cmap mid).isSome = true)
    (hrec : get_component_data fuel (some mid) cmap tmap dir st = none) :
    get_component_data (fuel + 1) (some cid) cmap tmap dir st = none := by
  simp only [get_component_data, hc, hm, hmid, hms, hrec, ne_eq, not_false_iff,
    and_true, if_true, if_neg hcid]

theorem pass1_snoc (evs : List Ev) (ev : Ev) :
    pass1 (evs ++ [ev]) = pass1_step (pass1 evs) ev := by
  simp [pass1, List.foldl_append]

theorem pass1_templates_sound_from (evs : List Ev)
    (maps : List (String × Component) × List (String × Entity))
    (hinv : ∀ k e, aget maps.2 k = some e → e.masterLinkID = none) :
    ∀ k e, aget (List.foldl pass1_step maps evs).2 k = some e → e.masterLinkID = none := by
  induction evs generalizing maps with
  | nil => exact hinv
  | cons ev rest ih =>
    refine ih (pass1_step maps ev) ?_
    intro k e h
    match ev with
    | Ev.comp c =>
      match hcl : c.linkID with
      | some link_id =>
        by_cases hz : link_id = ""
        · simp only [pass1_step, hcl, hz, if_pos] at h
          exact hinv k e h
        · simp only [pass1_step, hcl, if_neg hz] at h
          exact hinv k e h
      | none =>
        simp only [pass1_step, hcl] at h
        exact hinv k e h
    | Ev.ent en =>
      match hml : en.masterLinkID with
      | some m =>
        simp only [pass1_step, hml] at h
        exact hinv k e h
      | none =>
        match hel : en.linkID with
        | some link_id =>
          by_cases hz : link_id = ""
          · simp only [pass1_step, hml, hel, hz, if_pos] at h
            exact hinv k e h
          · simp only [pass1_step, hml, hel, if_neg hz] at h
            rcases aget_aset_cases _ _ _ _ _ h with ⟨_, he⟩ | ⟨_, he⟩
            · rw [he]
              exact hml
            · exact hinv k e he
        | none =>
          simp only [pass1_step, hml, hel] at h
          exact hinv k e h

theorem aget_none_forall {κ α : Type} [DecidableEq κ] (m : List (κ × α)) (k : κ)
    (h : aget m k = none) : ∀ kv ∈ m, kv.1 ≠ k := by
  induction m with
  | nil => intro kv hkv; cases hkv
  | cons hd tl ih =>
    obtain ⟨a, b⟩ := hd
    rw [aget_cons] at h
    by_cases h1 : a = k
    · rw [if_pos h1] at h; cases h
    · rw [if_neg h1] at h
      intro kv hkv
      rcases List.mem_cons.mp hkv with rfl | hkv2
      · exact h1
      · exact ih h kv hkv2

theorem parse_transform_aget_other (c : Component) (st : St) (k : String)
    (h1 : ¬ k = "translation") (h2 : ¬ k = "rotation") (h3 : ¬ k = "scale") :
    aget (parse_transform c st).1 k = none := by
  unfold parse_transform
  dsimp only
  repeat split
  all_goals
    (repeat
      (first
        | rfl
        | (rw [aget_aset_ne _ _ _ _ (Ne.symm h3)])
        | (rw [aget_aset_ne _ _ _ _ (Ne.symm h2)])
        | (rw [aget_aset_ne _ _ _ _ (Ne.symm h1)])
        | (rw [aget_cons, if_neg (fun hh => h1 hh.symm)])
        | split
        | (dsimp only)))

/-- C1: merging an instance entity onto its template overlays the
instance's name-keyed component mapping onto the template's by key,
and an instance entry fully replaces the template entry of the same
name.  The first conjunct is the general overlay fact for the merge
operation `get_entity_data` uses (`dict.copy` then `dict.update`): on
any name-keyed mappings, a name bound by the instance mapping keeps
exactly the instance's dictionary.  The remaining conjuncts run the
spec's example through `get_entity_data`: template "Root" with
`scale=1.0` (and a `translation` of its own) overridden by instance
"Root" with `scale=2.0` yields a merged "Root" equal to the instance
resolution alone — `scale=2.0`, no inherited `translation`
(whole-component replacement, not field-by-field). -/
theorem c1_instance_overlays_template :
    (∀ (tmplComps instComps : List (Value × Dict)) (k : Value) (d : Dict),
      keysNodup instComps → aget instComps k = some d →
      aget (aupdate tmplComps instComps) k = some d)
    ∧ get_entity_data 2 c1_instanceEntity c1_cmap c1_tmap "d" ⟨[], []⟩ =
        some (some { nm := some "Inst", cls := none, etype := none,
                     template_id := some "T1", instance_id := some "E1",
                     components := [c1_mergedRoot] }, ⟨[], []⟩)
    ∧ aget c1_mergedRoot "scale" = some (Value.num 2)
    ∧ aget c1_mergedRoot "translation" = none
    ∧ aget c1_mergedRoot "link_id" = some (Value.str "c2") := by
  exact ⟨fun t i k d hnd h => aget_aupdate_of_aget i t k d hnd h, by rfl, by rfl, by rfl,
    by rfl⟩

/-- Witness for C1: the overlay conjunct applied to the concrete
name-keyed mappings of the example. -/
theorem c1_witness :
    aget (aupdate [(Value.str "Root", ([("scale", Value.num 1)] : Dict))]
      [(Value.str "Root", c1_mergedRoot)]) (Value.str "Root") = some c1_mergedRoot := by
  exact c1_instance_overlays_template.1 _ _ _ _
    (by unfold keysNodup; simp) rfl

/-- C2: a component whose master link resolves merges its own
attributes on top of the master's normalized data field by field:
master "B" defines `translation=[1,2,3]` (and `scale=9.0`), child "A"
defines only `scale=0.5`, and the resolution of "A" carries both the
inherited `translation` and its own `scale=0.5` (the master's `scale`
is overridden at the attribute level, the other master field
survives). -/
theorem c2_master_merge_field_granular :
    get_component_data 2 (some "A") c2_cmap [] "d" ⟨[], []⟩ =
      some (some c2_resolvedChild, ⟨[], []⟩)
    ∧ aget c2_resolvedChild "translation" = some (Value.vec [1, 2, 3])
    ∧ aget c2_resolvedChild "scale" = some (Value.num (mkRat 1 2))
    ∧ aget c2_resolvedChild "name" = some (Value.str "Child") := by
  exact ⟨by rfl, by rfl, by rfl, by rfl⟩

/-- C3: the source has no cycle detection — on the self-cyclic
component map, `get_component_data` follows the master chain forever:
no recursion budget suffices for the call to return (in Python, the
recursion at map_porter.py lines 141-145 never terminates and the
process dies with a `RecursionError`).  This refutes the claim that
cycles are detected and broken defensively. -/
theorem c3_master_cycle_diverges : ∀ (fuel : ℕ) (st : St),
    get_component_data fuel (some "A") cyclic_cmap [] "d" st = none := by
  intro fuel
  induction fuel with
  | zero => intro st; rfl
  | succ n ih =>
    intro st
    exact gcd_master_fail n "A" "A" cyclic_cmap [] "d" st cyclicComp
      (by decide) rfl rfl (by decide) rfl (ih st)

/-- C4: the spec's path-rewriting example, run through the embedded
resolver with the document located at
`Client/Data/3_World/99_Tutorial/level.xml`: joining, normalizing,
cutting after the first `Data` segment and stripping the extension
yields `/Game/00_Object/model`; the second conjunct checks the
extension strip is case-insensitive (`.NIF`). -/
theorem c4_asset_path_example :
    get_unreal_asset_path (some "..\\..\\00_Object\\model.nif")
      (nt_dirname "Client/Data/3_World/99_Tutorial/level.xml") ⟨[], []⟩ =
      (some "/Game/00_Object/model", ⟨[], []⟩)
    ∧ get_unreal_asset_path (some "..\\..\\00_Object\\model.NIF")
      "Client/Data/3_World/99_Tutorial" ⟨[], []⟩ =
      (some "/Game/00_Object/model", ⟨[], []⟩) := by
  exact ⟨by rfl, by rfl⟩

/-- Counterexample for C5: on a scene-graph component whose path has
no `Data` segment, the normalized component does NOT omit the
`unreal_path` field — the key is present and bound to the null value
(Python stores `data['unreal_path'] = None` at map_porter.py line
159), refuting the claimed omission; `nif_path_rel` is retained. -/
theorem c5_counterexample :
    get_component_data 1 (some "s1") c5_cmap [] "C" ⟨[], []⟩ =
      some (some c5_dict,
        ⟨[], ["Could not find Data root in path: C\\NoMarker\\model.nif"]⟩)
    ∧ aget c5_dict "unreal_path" = some Value.nil
    ∧ ¬ aget c5_dict "unreal_path" = none := by
  exact ⟨by rfl, by rfl, by decide⟩

/-- C5 as amended: when asset-path resolution fails for a scene-graph
component, the failure is recoverable and isolated to that attribute,
but the normalized component carries `unreal_path` with the null value
(rather than omitting the key) while retaining `nif_path_rel` with the
stripped original relative path. -/
theorem c5_null_not_omitted (fuel : ℕ) (cid : String)
    (cmap : List (String × Component)) (tmap : List (String × Entity)) (dir : String)
    (st : St) (comp : Component) (p : XProp) (t : String)
    (hcid : ¬ cid = "") (hc : aget cmap cid = some comp)
    (hm : comp.masterLinkID = none)
    (hcls : comp.cls = some "NiSceneGraphComponent")
    (hsg : findProp comp "Scene Root" = some p)
    (ht : p.text = some t) (htz : ¬ t = "")
    (hfail : (get_unreal_asset_path (some (pyStrip t)) dir st).1 = none) :
    ∃ d st2, get_component_data (fuel + 1) (some cid) cmap tmap dir st = some (some d, st2)
      ∧ aget d "unreal_path" = some Value.nil
      ∧ aget d "nif_path_rel" = some (Value.str (pyStrip t)) := by
  have h1 : ¬ (comp.cls = some "NiTransformationComponent") := by rw [hcls]; decide
  refine ⟨aset (aset (aset (aset (aset [] "link_id" (Value.str cid)) "class" (optVal comp.cls))
      "name" (optVal comp.nm)) "unreal_path" Value.nil) "nif_path_rel"
      (Value.str (pyStrip t)),
    (get_unreal_asset_path (some (pyStrip t)) dir st).2, ?_, ?_, ?_⟩
  · simp only [get_component_data, if_neg hcid, hc, hm, if_neg h1, if_pos hcls, hsg, ht,
      if_neg htz, hfail, optVal]
  · rw [aget_aset_ne _ _ _ _ (by decide), aget_aset_self]
  · rw [aget_aset_self]

/-- Witness for C5: the amended theorem instantiated on the concrete
no-`Data`-segment component. -/
theorem c5_witness :
    ∃ d st2, get_component_data 1 (some "s1") c5_cmap [] "C" ⟨[], []⟩ = some (some d, st2)
      ∧ aget d "unreal_path" = some Value.nil
      ∧ aget d "nif_path_rel" = some (Value.str "NoMarker\\model.nif") := by
  have h := c5_null_not_omitted 0 "s1" c5_cmap [] "C" ⟨[], []⟩ c5_sceneComp
    { nm := some "Scene Root", text := some " NoMarker\\model.nif " }
    " NoMarker\\model.nif " (by decide) rfl rfl rfl rfl rfl (by decide) rfl
  simpa only [show pyStrip " NoMarker\\model.nif " = "NoMarker\\model.nif" from rfl] using h

/-- Counterexample for C6: processing a single instance entity whose
master-entity link `T404` resolves to no template drops the entity
(no Entity Record is emitted) and leaves the diagnostic log EMPTY —
the condition is never logged, refuting the claim that it appears in
the log exactly once per such entity. -/
theorem c6_counterexample :
    pass2 1 [] [] "d" [c6_ghostEntity] [] ⟨[], []⟩ = some ([], ⟨[], []⟩)
    ∧ ¬ (∃ r, pass2 1 [] [] "d" [c6_ghostEntity] [] ⟨[], []⟩ = some r
        ∧ r.2.log.length = 1) := by
  refine ⟨by rfl, ?_⟩
  rintro ⟨r, hr1, hr2⟩
  rw [show pass2 1 [] [] "d" [c6_ghostEntity] [] ⟨[], []⟩ =
    some ([], ⟨[], []⟩) from rfl] at hr1
  have he := Option.some.inj hr1
  rw [← he] at hr2
  exact absurd hr2 (by decide)

/-- C6 as amended: an instance entity whose master-entity link is
falsy or unresolvable is dropped from the output with the state (and
hence the diagnostic log) left untouched — the condition is not logged
at all — and the second pass continues with the remaining entities. -/
theorem c6_dropped_entity_not_logged (fuel : ℕ) (e : Entity) (m : String)
    (cmap : List (String × Component)) (tmap : List (String × Entity)) (dir : String)
    (rest : List Entity) (acc : List EntityData) (st : St)
    (hml : e.masterLinkID = some m)
    (hfail : m = "" ∨ aget tmap m = none) :
    get_entity_data fuel e cmap tmap dir st = some (none, st)
    ∧ pass2 fuel cmap tmap dir (e :: rest) acc st = pass2 fuel cmap tmap dir rest acc st := by
  have h1 : get_entity_data fuel e cmap tmap dir st = some (none, st) := by
    by_cases hz : m = ""
    · simp only [get_entity_data, hml, if_pos hz]
    · rcases hfail with hz2 | hn
      · exact absurd hz2 hz
      · simp only [get_entity_data, hml, if_neg hz, hn]
  exact ⟨h1, by simp only [pass2, hml, h1]⟩

/-- Witness for C6: the amended theorem on the concrete ghost
entity. -/
theorem c6_witness :
    get_entity_data 1 c6_ghostEntity [] [] "d" ⟨[], []⟩ = some (none, ⟨[], []⟩)
    ∧ pass2 1 [] [] "d" [c6_ghostEntity] [] ⟨[], []⟩ = pass2 1 [] [] "d" [] [] ⟨[], []⟩ := by
  exact c6_dropped_entity_not_logged 1 c6_ghostEntity "T404" [] [] "d" [] [] ⟨[], []⟩
    rfl (Or.inr rfl)

/-- C7: resolving a `NiCollisionComponent` leaves the unhandled set
untouched (it is recognized and ignored) and yields only the base
triple; resolving two components of the unrecognized class
`NiFooBarComponent` sharing class and name adds their `class::name`
pair to the set exactly once (the second resolution finds it already
present and the set is unchanged), and each yields only its base
triple (no class-specific attributes). -/
theorem c7_unhandled_set :
    get_component_data 1 (some "k1") c7_cmap [] "d" ⟨[], []⟩ =
      some (some c7_collDict, ⟨[], []⟩)
    ∧ get_component_data 1 (some "f1") c7_cmap [] "d" ⟨[], []⟩ =
      some (some c7_fooDict1, ⟨["NiFooBarComponent::X"], []⟩)
    ∧ get_component_data 1 (some "f2") c7_cmap [] "d" ⟨["NiFooBarComponent::X"], []⟩ =
      some (some c7_fooDict2, ⟨["NiFooBarComponent::X"], []⟩)
    ∧ (["NiFooBarComponent::X"].count "NiFooBarComponent::X") = 1
    ∧ c7_fooDict1.length = 3 ∧ c7_fooDict2.length = 3 ∧ c7_collDict.length = 3 := by
  exact ⟨by rfl, by rfl, by rfl, by rfl, by rfl, by rfl, by rfl⟩

/-- C8: behavior of the first streaming pass.  In order: (1) a
component event with a truthy link identifier writes the element into
the component map (and only there); (2) hence a later component with
an already-bound identifier wins at lookup; (3) an entity event with
no master-entity link and a truthy link identifier writes the element
into the template map (and only there); (4) hence a later template
with an already-bound identifier wins at lookup; (5) an entity with a
master-entity link present is never entered (both maps unchanged);
(6, 7) elements lacking a link identifier are skipped without error;
(8) every element of the template map carries no master-entity-link
attribute. -/
theorem c8_first_pass_maps :
    (∀ (evs : List Ev) (c : Component) (k : String), c.linkID = some k → ¬ k = "" →
      pass1 (evs ++ [Ev.comp c]) = (aset (pass1 evs).1 k c, (pass1 evs).2))
    ∧ (∀ (evs : List Ev) (c : Component) (k : String), c.linkID = some k → ¬ k = "" →
      aget (pass1 (evs ++ [Ev.comp c])).1 k = some c)
    ∧ (∀ (evs : List Ev) (e : Entity) (k : String), e.masterLinkID = none →
      e.linkID = some k → ¬ k = "" →
      pass1 (evs ++ [Ev.ent e]) = ((pass1 evs).1, aset (pass1 evs).2 k e))
    ∧ (∀ (evs : List Ev) (e : Entity) (k : String), e.masterLinkID = none →
      e.linkID = some k → ¬ k = "" →
      aget (pass1 (evs ++ [Ev.ent e])).2 k = some e)
    ∧ (∀ (evs : List Ev) (e : Entity) (m : String), e.masterLinkID = some m →
      pass1 (evs ++ [Ev.ent e]) = pass1 evs)
    ∧ (∀ (evs : List Ev) (c : Component), c.linkID = none →
      pass1 (evs ++ [Ev.comp c]) = pass1 evs)
    ∧ (∀ (evs : List Ev) (e : Entity), e.masterLinkID = none → e.linkID = none →
      pass1 (evs ++ [Ev.ent e]) = pass1 evs)
    ∧ (∀ (evs : List Ev) (k : String) (e : Entity),
      aget (pass1 evs).2 k = some e → e.masterLinkID = none) := by
  have hcomp : ∀ (evs : List Ev) (c : Component) (k : String), c.linkID = some k →
      ¬ k = "" → pass1 (evs ++ [Ev.comp c]) = (aset (pass1 evs).1 k c, (pass1 evs).2) := by
    intro evs c k h1 h2
    rw [pass1_snoc]
    simp only [pass1_step, h1, if_neg h2]
  have hent : ∀ (evs : List Ev) (e : Entity) (k : String), e.masterLinkID = none →
      e.linkID = some k → ¬ k = "" →
      pass1 (evs ++ [Ev.ent e]) = ((pass1 evs).1, aset (pass1 evs).2 k e) := by
    intro evs e k h0 h1 h2
    rw [pass1_snoc]
    simp only [pass1_step, h0, h1, if_neg h2]
  refine ⟨hcomp, ?_, hent, ?_, ?_, ?_, ?_, ?_⟩
  · intro evs c k h1 h2
    rw [hcomp evs c k h1 h2]
    exact aget_aset_self _ _ _
  · intro evs e k h0 h1 h2
    rw [hent evs e k h0 h1 h2]
    exact aget_aset_self _ _ _
  · intro evs e m h
    rw [pass1_snoc]
    simp only [pass1_step, h]
  · intro evs c h
    rw [pass1_snoc]
    simp only [pass1_step, h]
  · intro evs e h0 h1
    rw [pass1_snoc]
    simp only [pass1_step, h0, h1]
  · intro evs k e h
    exact pass1_templates_sound_from evs ([], [])
      (fun k0 e0 h0 => Option.noConfusion h0) k e h

/-- Witness for C8: duplicate component link identifier "1" — the
later element wins at lookup; and the template-map soundness conjunct
applied to a concretely built map. -/
theorem c8_witness :
    aget (pass1 ([Ev.comp c8_dupComp1] ++ [Ev.comp c8_dupComp2])).1 "1" = some c8_dupComp2
    ∧ c8_tmplEntity.masterLinkID = none := by
  refine ⟨c8_first_pass_maps.2.1 [Ev.comp c8_dupComp1] c8_dupComp2 "1" rfl (by decide), ?_⟩
  exact c8_first_pass_maps.2.2.2.2.2.2.2 [Ev.ent c8_tmplEntity] "T7" c8_tmplEntity rfl

/-- Counterexample for C9: the claim reads keys as "lower case with
spaces and punctuation stripped", which for the property name
`Spot Angle` predicts the key `spotangle`; the script instead replaces
spaces with underscores (map_porter.py line 101), producing
`spot_angle`, and no entry exists under the claimed key. -/
theorem c9_counterexample :
    spec_stripped_key "Spot Angle" = "spotangle"
    ∧ lightKey "Spot Angle" = "spot_angle"
    ∧ aget (parse_light c9_lightComp ⟨[], []⟩).1 "spot_angle" = some (Value.num (mkRat 3 2))
    ∧ aget (parse_light c9_lightComp ⟨[], []⟩).1 (spec_stripped_key "Spot Angle") = none := by
  exact ⟨by rfl, by rfl, by rfl, by rfl⟩

/-- C9 as amended: light-property keys are the source property name
lower-cased with spaces replaced by underscores and parentheses
removed; a class `Entity Pointer` property becomes the list of its
items' reference link identifiers, a `Color (RGB)` property becomes a
vector of parsed numbers, a `Float` property is coerced to a number,
and every other property is kept as trimmed text. -/
theorem c9_light_normalization :
    parse_light c9_lightComp ⟨[], []⟩ = (c9_expected, ⟨[], []⟩)
    ∧ aget c9_expected (lightKey "Ambient Color") =
      some (Value.vec [mkRat 1 2, mkRat 1 4, 1])
    ∧ aget c9_expected (lightKey "Affected Entities") = some (Value.refs ["9", "10"])
    ∧ aget c9_expected (lightKey "Light Type (Main)") = some (Value.str "Foo")
    ∧ aget c9_expected (lightKey "Spot Angle") = some (Value.num (mkRat 3 2)) := by
  exact ⟨by rfl, by rfl, by rfl, by rfl, by rfl⟩

/-- Counterexample for C10: a light component named `Lamp` carrying a
property named `Name` resolves to a dictionary whose `name` entry is
the property's value `Evil` — the base triple written after the
master merge can be overwritten by the component's own class-specific
parsing, so the resolved `name` is not always the element's `Name`
attribute. -/
theorem c10_counterexample :
    get_component_data 1 (some "L") c10_cmap [] "d" ⟨[], []⟩ =
      some (some c10_dict, ⟨[], []⟩)
    ∧ c10_lightComp.nm = some "Lamp"
    ∧ aget c10_dict "name" = some (Value.str "Evil")
    ∧ ¬ aget c10_dict "name" = some (Value.str "Lamp") := by
  exact ⟨by rfl, by rfl, by rfl, by decide⟩

/-- C10 as amended: every successfully resolved component dictionary
contains the keys `link_id`, `class` and `name`; because the base
triple is written after the master-chain merge, the master's values
never survive into these keys — for every class except
`NiLightComponent` (whose own property bag may shadow the triple, as
in the counterexample, still with values from the component itself)
they equal the referenced component's own attributes. -/
theorem c10_base_triple (fuel : ℕ) (cid : String) (cmap : List (String × Component))
    (tmap : List (String × Entity)) (dir : String) (st : St) (d : Dict) (st2 : St)
    (comp : Component)
    (h : get_component_data fuel (some cid) cmap tmap dir st = some (some d, st2))
    (hc : aget cmap cid = some comp) :
    (aget d "link_id").isSome ∧ (aget d "class").isSome ∧ (aget d "name").isSome
    ∧ (¬ comp.cls = some "NiLightComponent" →
        aget d "link_id" = some (Value.str cid)
        ∧ aget d "class" = some (optVal comp.cls)
        ∧ aget d "name" = some (optVal comp.nm)) := by
  match fuel with
  | 0 => cases h
  | fuel + 1 =>
    unfold get_component_data at h
    dsimp only at h
    rw [hc] at h
    dsimp only at h
    iterate 12 (all_goals (try split at h))
    all_goals try (simp at h)
    all_goals
      (obtain ⟨h1, h2⟩ := h
       subst h1
       subst h2
       refine ⟨?_, ?_, ?_, fun hnl => ⟨?_, ?_, ?_⟩⟩
       all_goals
        (first
          | (exact absurd (by assumption : comp.cls = some "NiLightComponent") hnl)
          | ((try rw [aget_aupdate_keys_disjoint _ _ _ (aget_none_forall _ _
                (parse_transform_aget_other _ _ _ (by decide) (by decide) (by decide)))])
             (repeat rw [aget_aset_ne _ _ _ _ (by decide)])
             rw [aget_aset_self]
             try rfl)
          | (apply aget_aupdate_isSome
             (repeat rw [aget_aset_ne _ _ _ _ (by decide)])
             rw [aget_aset_self]
             try rfl)))

/-- Witness for C10: the amended theorem on a concrete transform
component resolution. -/
theorem c10_witness :
    (aget c10_wdict "link_id").isSome ∧ (aget c10_wdict "class").isSome
    ∧ (aget c10_wdict "name").isSome
    ∧ (aget c10_wdict "link_id" = some (Value.str "w1")
      ∧ aget c10_wdict "class" = some (optVal c10_plainComp.cls)
      ∧ aget c10_wdict "name" = some (optVal c10_plainComp.nm)) := by
  have h := c10_base_triple 1 "w1" c10_wmap [] "d" ⟨[], []⟩ c10_wdict ⟨[], []⟩
    c10_plainComp (by rfl) (by rfl)
  exact ⟨h.1, h.2.1, h.2.2.1, h.2.2.2 (by decide)⟩

end MapPorter
